import Mathlib

/-!
Shallow embedding of the LixService readability engine
(apps/leslighet/LixService) and proofs about its specified behaviour.

Texts are modelled as `List Char`; Python floats are modelled as exact
rationals `ℚ`, with Python's `round(x, n)` modelled as exact
round-half-to-even at `n` decimals; Python dicts that the claims touch are
modelled as Lean structures.
-/

namespace LixService

/-- Whitespace characters recognised by Python's `str.isspace` / regex `\s`
(ASCII range, which covers the service's inputs). -/
def pyIsSpaceChar (c : Char) : Bool :=
  c == ' ' || c == '\t' || c == '\n' || c == '\r' || c == '\x0b' || c == '\x0c'

/-- Word characters of Python's Unicode regex `\w`, restricted to the
alphabet this Norwegian-text service handles: ASCII alphanumerics,
underscore, and æ/ø/å in both cases. -/
def pyIsWordChar (c : Char) : Bool :=
  c.isAlphanum || c == '_' ||
  c == 'æ' || c == 'ø' || c == 'å' || c == 'Æ' || c == 'Ø' || c == 'Å'

/-- Python `str.strip()`: drop leading and trailing whitespace. -/
def pyStrip (s : List Char) : List Char :=
  ((s.dropWhile pyIsSpaceChar).reverse.dropWhile pyIsSpaceChar).reverse

/-- Python `str.lower()` on the service's alphabet. -/
def pyToLower (c : Char) : Char :=
  if c == 'Æ' then 'æ' else if c == 'Ø' then 'ø' else if c == 'Å' then 'å'
  else c.toLower

/-- Maximal runs of characters satisfying `p` (the semantics of
`re.findall` for a pattern of the form `[class]+`). -/
def runsOf (p : Char → Bool) : List Char → List Char → List (List Char)
  | [], acc => if acc.isEmpty then [] else [acc.reverse]
  | c :: cs, acc =>
    if p c then runsOf p cs (c :: acc)
    else if acc.isEmpty then runsOf p cs []
    else acc.reverse :: runsOf p cs []

/-- Does the fragment contain a non-whitespace character?  This is the
filter `s and not s.isspace()` used on sentence fragments. -/
def containsNonSpace (s : List Char) : Bool := s.any (fun c => !pyIsSpaceChar c)

/-- Sentence-ending punctuation of the pattern `[.!?]`. -/
def isSentEnd (c : Char) : Bool := c == '.' || c == '!' || c == '?'

/-- Length of a match of the separator regex `[.!?]+["»]?|\n\n` at the head
of the list, when the regex matches there (with the positive length bundled
for termination of the splitter). -/
def sentSepLen : List Char → Option {k : ℕ // 0 < k}
  | [] => none
  | c :: cs =>
    if isSentEnd c then
      let k := 1 + (cs.takeWhile isSentEnd).length
      match cs.dropWhile isSentEnd with
      | q :: _ => if q == '"' || q == '»' then some ⟨k + 1, by omega⟩ else some ⟨k, by omega⟩
      | [] => some ⟨k, by omega⟩
    else if c == '\n' then
      match cs with
      | d :: _ => if d == '\n' then some ⟨2, by omega⟩ else none
      | _ => none
    else none

/-- Worker for the sentence splitter; the fuel argument (instantiated with
the input length, which every separator match strictly decreases) makes the
recursion structural so that it reduces in the kernel. -/
def splitFragsFuel : ℕ → List Char → List Char → List (List Char)
  | _, [], acc => [acc.reverse]
  | 0, _ :: _, acc => [acc.reverse]
  | fuel + 1, c :: cs, acc =>
    match sentSepLen (c :: cs) with
    | some k => acc.reverse :: splitFragsFuel fuel ((c :: cs).drop k.1) []
    | none => splitFragsFuel fuel cs (c :: acc)

/-- Split a character list at every match of `[.!?]+["»]?|\n\n`, keeping the
(possibly empty) fragments, as Python's `re.split` does. -/
def splitSentenceFrags (l : List Char) : List (List Char) :=
  splitFragsFuel l.length l []

namespace ReadabilityService

/-- Embeds `ReadabilityService._extract_words`: `re.findall(r'\w+', text)`. -/
def extract_words (text : List Char) : List (List Char) :=
  runsOf pyIsWordChar text []

/-- Embeds `ReadabilityService._get_sentence_count`: split on the sentence
pattern, drop empty/whitespace fragments, return at least 1 for non-empty
text and 0 for empty or whitespace-only text. -/
def get_sentence_count (text : List Char) : ℕ :=
  if text.isEmpty || text.all pyIsSpaceChar then 0
  else max 1 ((splitSentenceFrags text).filter containsNonSpace).length

end ReadabilityService

/-- Floor of a rational as an integer (`Int.fdiv` is floor division; kept
kernel-reducible, unlike the `Int.floor` instance). -/
def ratFloor (x : ℚ) : ℤ := x.num.fdiv x.den

/-- Round a rational to an integer, half to even, as Python's `round` does
(`Rat.blt` is the kernel-reducible rational comparison). -/
def pyRoundInt (x : ℚ) : ℤ :=
  let f := ratFloor x
  let r := x - f
  if Rat.blt r (1/2) then f
  else if Rat.blt (1/2) r then f + 1
  else if f % 2 = 0 then f else f + 1

/-- Python's `round(x, d)` on exact rationals: round half to even at `d`
decimal places. -/
def pyRound (d : ℕ) (x : ℚ) : ℚ := (pyRoundInt (x * 10 ^ d) : ℚ) / 10 ^ d

/-- Classification record returned by `LixMetric.classify` (the static
`thresholds` map is omitted: it is the same constant in every band). -/
structure Classification where
  category : String
  description : String
  audience : String
  improvement_tips : List String
deriving Repr, DecidableEq

namespace LixMetric

/-- Threshold below which a LIX score is "very easy". -/
def very_easy : ℚ := 20
/-- Threshold below which a LIX score is "easy". -/
def easy : ℚ := 30
/-- Threshold below which a LIX score is "medium". -/
def medium : ℚ := 40
/-- Threshold below which a LIX score is "difficult". -/
def difficult : ℚ := 50
/-- Word-length threshold for a long word (`LONG_WORD_THRESHOLD`). -/
def LONG_WORD_THRESHOLD : ℕ := 6

/-- Embeds `LixMetric.compute`: average sentence length plus percentage of
words longer than 6 characters, rounded to one decimal; 0 when the word
list is empty or the sentence count is 0. -/
def compute (words : List (List Char)) (sentence_count : ℕ) : ℚ :=
  if words.isEmpty || sentence_count = 0 then 0
  else
    let word_count : ℚ := words.length
    let long_words_count : ℚ := (words.filter (fun w => LONG_WORD_THRESHOLD < w.length)).length
    let avg_sentence_length := word_count / (sentence_count : ℚ)
    let long_words_percentage := long_words_count / word_count * 100
    pyRound 1 (avg_sentence_length + long_words_percentage)

/-- Embeds `LixMetric.classify` (the per-score memo dict is a transparent
cache of this pure function and is not modelled). -/
def classify (score : ℚ) : Classification :=
  if score < very_easy then
    { category := "svært lett"
      description := "Teksten er svært lettlest og egnet for alle lesere."
      audience := "Alle lesere, inkludert barn og nybegynnere."
      improvement_tips := ["Teksten er allerede svært lettlest."] }
  else if score < easy then
    { category := "lett"
      description := "Teksten er lettlest og tilgjengelig for de fleste."
      audience := "Generelt publikum, inkludert ungdomsskoleelever."
      improvement_tips := ["Teksten er allerede lettlest.", "Vurder om korte setninger gir god flyt."] }
  else if score < medium then
    { category := "middels"
      description := "Teksten har middels vanskelighetsgrad."
      audience := "Voksne lesere og videregående skoleelever."
      improvement_tips := ["Vurder å forenkle noen lange ord.", "Se etter setninger som kan deles opp."] }
  else if score < difficult then
    { category := "vanskelig"
      description := "Teksten er relativt krevende å lese."
      audience := "Lesere med god lesekompetanse, høyere utdanning."
      improvement_tips :=
        ["Bruk kortere setninger (under 15-20 ord).",
         "Erstatt noen lange ord med kortere alternativer.",
         "Del opp komplekse avsnitt."] }
  else
    { category := "svært vanskelig"
      description := "Teksten er svært krevende og kompleks."
      audience := "Spesialister, akademikere, avanserte lesere."
      improvement_tips :=
        ["Del lange setninger i kortere enheter.",
         "Bruk enklere og kortere ord der mulig.",
         "Vurder om fagterminologi kan forklares.",
         "Legg til mellomtitler for å bryte opp teksten."] }

end LixMetric

/-- Classification record returned by `RIXMetric.classify` (the module that
`app.services.metrics.__init__` actually exports as `RixMetric`). -/
structure RixClassification where
  score : ℚ
  category : String
  description : String
  audience : String
  educational_level : String
  improvement_tips : List String
deriving Repr, DecidableEq

namespace RIXMetric

/-- Threshold below which a RIX score is "very easy". -/
def very_easy : ℚ := 1.5
/-- Threshold below which a RIX score is "easy". -/
def easy : ℚ := 3.0
/-- Threshold below which a RIX score is "medium". -/
def medium : ℚ := 4.5
/-- Threshold below which a RIX score is "difficult". -/
def difficult : ℚ := 6.0

/-- Embeds `RIXMetric.get_long_words` with its default `min_length = 6.9`:
words whose length exceeds 6.9, i.e. words of 7 or more characters. -/
def get_long_words (words : List (List Char)) : List (List Char) :=
  words.filter (fun w => (6.9 : ℚ) < (w.length : ℚ))

/-- Embeds `RIXMetric.compute`: long words (7+ chars) per sentence, rounded
to two decimals; 0.0 when the sentence count is 0. -/
def compute (words : List (List Char)) (sentence_count : ℕ) : ℚ :=
  if sentence_count = 0 then 0
  else pyRound 2 (((get_long_words words).length : ℚ) / (sentence_count : ℚ))

/-- Embeds `RIXMetric.classify` (the static `thresholds` map is omitted). -/
def classify (score : ℚ) : RixClassification :=
  let improvement_tips :=
    (if medium ≤ score then
      ["Reduser antall lange ord per setning", "Varier mellom korte og lange ord"]
     else []) ++
    (if difficult ≤ score then
      ["Del opp setninger med mange lange ord",
       "Bruk enklere synonymer for faglige termer når mulig"]
     else [])
  if score < very_easy then
    { score := score, category := "Svært lett"
      description := "Teksten inneholder svært få lange ord per setning, ideell for nybegynnere."
      audience := "Passer for tidlige lesere og lettlest litteratur."
      educational_level := "Barneskole (tidlige trinn)"
      improvement_tips := [] }
  else if score < easy then
    { score := score, category := "Lett"
      description := "Teksten har få lange ord per setning, meget lettlest."
      audience := "Tilgjengelig for de fleste lesere, også de med begrenset leseferdighet."
      educational_level := "Barneskole (senere trinn)"
      improvement_tips := [] }
  else if score < medium then
    { score := score, category := "Middels"
      description := "Teksten har en balansert fordeling av lange ord, er tilgjengelig for de fleste."
      audience := "Passer for generelt publikum med gjennomsnittlige leseferdigheter."
      educational_level := "Ungdomsskole"
      improvement_tips := [] }
  else if score < difficult then
    { score := score, category := "Vanskelig"
      description := "Teksten har noe høyere antall lange ord per setning, krever god leseforståelse."
      audience := "Krever gode leseferdigheter, passer for fagstoff og akademiske tekster."
      educational_level := "Videregående skole"
      improvement_tips := improvement_tips.take 2 }
  else
    { score := score, category := "Svært vanskelig"
      description := "Teksten har mange lange ord per setning, krever meget god leseforståelse."
      audience := "Beregnet på lesere med sterke leseferdigheter og fagkunnskap."
      educational_level := "Høyere utdanning"
      improvement_tips := improvement_tips }

end RIXMetric

/-- Python `str(n)` for the lengths used in cache keys. -/
def natStr (n : ℕ) : String := toString n

namespace ReadabilityService

/-- The ordered category list `ReadabilityService._CATEGORIES`. -/
def CATEGORIES : List String :=
  ["svært lett", "lett", "middels", "vanskelig", "svært vanskelig"]

/-- Embeds `ReadabilityService._get_cache_key`: the stripped first 100
characters of the text, an underscore, and the text's total length. -/
def get_cache_key (text : List Char) : String :=
  String.mk (pyStrip (text.take 100)) ++ "_" ++ natStr text.length

/-- One metric's slice of the result dict built by `get_readability`
(`audience` and `improvement_tips` are absent in the empty-text result,
hence optional). -/
structure MetricOut where
  score : ℚ
  category : String
  description : String
  audience : Option String
  improvement_tips : Option (List String)
deriving Repr, DecidableEq

/-- The `text_statistics` block of the result dict. -/
structure TextStatistics where
  word_count : ℕ
  sentence_count : ℕ
  avg_sentence_length : ℚ
  long_words_count : ℕ
  long_words_percentage : ℚ
deriving Repr, DecidableEq

/-- The dict returned by `ReadabilityService.get_readability`
(`text_statistics` is absent in the empty-text result). -/
structure ReadabilityResult where
  lix : MetricOut
  rix : MetricOut
  combined_description : String
  text_statistics : Option TextStatistics
deriving Repr, DecidableEq

/-- The result returned for empty or whitespace-only text. -/
def emptyResult : ReadabilityResult :=
  { lix := { score := 0, category := "ikke tilgjengelig"
             description := "Teksten er tom eller inneholder ikke setninger."
             audience := none, improvement_tips := none }
    rix := { score := 0, category := "ikke tilgjengelig"
             description := "Teksten er tom eller inneholder ikke setninger."
             audience := none, improvement_tips := none }
    combined_description := "Teksten er for kort for analyse."
    text_statistics := none }

/-- Embeds `ReadabilityService._generate_combined_description`.  The
`try/except ValueError` around the two `CATEGORIES.index` calls is modelled
by matching on the two optional indices. -/
def generate_combined_description (lix_score rix_score : ℚ)
    (lix_category rix_category : String) : String :=
  if lix_category == rix_category then
    if lix_category == "svært lett" then
      "Teksten er konsistent svært lettlest og tilgjengelig for alle lesere."
    else if lix_category == "lett" then
      "Teksten er konsistent lettlest med god balanse mellom korte og lange ord."
    else if lix_category == "middels" then
      "Teksten har middels vanskelighetsgrad, med en del lange ord og setninger."
    else if lix_category == "vanskelig" then
      "Teksten er konsistent krevende med mange lange ord og komplekse setninger."
    else
      "Teksten er konsistent svært krevende med høy andel lange ord og komplekse setninger."
  else
    match CATEGORIES.findIdx? (· == lix_category), CATEGORIES.findIdx? (· == rix_category) with
    | some lix_level, some rix_level =>
      if ((lix_level : ℤ) - (rix_level : ℤ)).natAbs ≤ 1 then
        "Teksten er i hovedsak " ++ lix_category ++ " til " ++ rix_category ++
          ", med en balansert vanskelighetsgrad."
      else if 40 < lix_score ∧ rix_score < 2.5 then
        "Teksten har mange korte setninger, men med en del lange ord. Setningsoppbyggingen er enkel, men ordvalget kan gjøre teksten utfordrende."
      else if lix_score < 30 ∧ 3.5 < rix_score then
        "Teksten har relativt korte ord, men setningene er lange. Vurder å dele opp setninger for bedre lesbarhet."
      else
        "Teksten har blandede resultater: LIX-analysen viser " ++ lix_category ++
          ", mens RIX-analysen viser " ++ rix_category ++ "."
    | _, _ =>
      "Teksten har varierende lesbarhet: LIX-nivå " ++ lix_category ++
        ", RIX-nivå " ++ rix_category ++ "."

/-- The class-level `_result_cache`, an insertion-ordered map. -/
abbrev ResultCache := List (String × ReadabilityResult)

/-- The `_MAX_CACHE_SIZE` bound of the result cache. -/
def MAX_CACHE_SIZE : ℕ := 1000

/-- Embeds `ReadabilityService.get_readability`, with the class-level
result cache passed in and returned explicitly.  The cache is consulted
before the empty-text check, exactly as in the source; on overflow the
oldest quarter of the entries is evicted before inserting. -/
def get_readability (cache : ResultCache) (text : List Char) :
    ReadabilityResult × ResultCache :=
  let cache_key := get_cache_key text
  match cache.lookup cache_key with
  | some r => (r, cache)
  | none =>
    if text.isEmpty || text.all pyIsSpaceChar then (emptyResult, cache)
    else
      let words := extract_words text
      let sentence_count := get_sentence_count text
      let lix_score := LixMetric.compute words sentence_count
      let lix_classification := LixMetric.classify lix_score
      let rix_score := RIXMetric.compute words sentence_count
      let rix_classification := RIXMetric.classify rix_score
      let word_count := words.length
      let long_words_count :=
        (words.filter (fun w => 6 < w.length)).length
      let text_statistics : TextStatistics :=
        { word_count := word_count
          sentence_count := sentence_count
          avg_sentence_length := pyRound 1 ((word_count : ℚ) / (max 1 sentence_count : ℕ))
          long_words_count := long_words_count
          long_words_percentage :=
            pyRound 1 ((long_words_count : ℚ) / (max 1 word_count : ℕ) * 100) }
      let combined_description :=
        generate_combined_description lix_score rix_score
          lix_classification.category rix_classification.category
      let result : ReadabilityResult :=
        { lix := { score := lix_score
                   category := lix_classification.category
                   description := lix_classification.description
                   audience := some lix_classification.audience
                   improvement_tips := some lix_classification.improvement_tips }
          rix := { score := rix_score
                   category := rix_classification.category
                   description := rix_classification.description
                   audience := some rix_classification.audience
                   improvement_tips := some rix_classification.improvement_tips }
          combined_description := combined_description
          text_statistics := some text_statistics }
      let cache' :=
        if MAX_CACHE_SIZE ≤ cache.length then cache.drop (MAX_CACHE_SIZE / 4) else cache
      (result, cache' ++ [(cache_key, result)])

end ReadabilityService

/-- The optional `user_context` block consulted by the recommender
(truthiness of the Python dict is modelled by `Option`). -/
structure UserContext where
  purpose : Option String
deriving Repr, DecidableEq

/-- The metrics dict handed to `ReadabilityRecommender.generate`. -/
structure RecMetrics where
  lix_score : ℚ
  rix_score : ℚ
  avg_sentence_length : ℚ
  long_words_percentage : ℚ
  user_context : Option UserContext
deriving Repr, DecidableEq

/-- A recommendation record: its type, impact and examples (the free-text
`title`/`description`/`suggestion` fields carry no logic and are omitted). -/
structure Recommendation where
  type : String
  impact : String
  examples : List String
deriving Repr, DecidableEq

namespace ReadabilityRecommender

/-- The sentence-structure rule (`avg_sentence_length > 18`); simplified
mode empties its examples ("Only include examples in full mode"). -/
def sentence_structure_recs (m : RecMetrics) (simplified : Bool) : List Recommendation :=
  if 18 < m.avg_sentence_length then
    [{ type := "sentence_structure"
       impact := if 25 < m.avg_sentence_length then "high" else "medium"
       examples :=
         if simplified then [] else
         ["Før: 'Det er viktig å vurdere alle faktorene som påvirker resultatet, inkludert eksterne variabler som vær og tilgjengelighet av materialer, samt interne faktorer som gjennomføringskapasitet og kvalitetssikring.'",
          "Etter: 'Det er viktig å vurdere alle faktorene som påvirker resultatet. Dette inkluderer eksterne variabler som vær og tilgjengelighet av materialer. Interne faktorer som gjennomføringskapasitet og kvalitetssikring må også vurderes.'"] }]
  else []

/-- The word-complexity rule (`long_words_percentage > 25`). -/
def word_complexity_recs (m : RecMetrics) : List Recommendation :=
  if 25 < m.long_words_percentage then
    [{ type := "word_complexity"
       impact := if 35 < m.long_words_percentage then "high" else "medium"
       examples :=
         ["Erstatt 'implementere' med 'bruke'",
          "Erstatt 'signifikant' med 'viktig'",
          "Erstatt 'kommunisere' med 'si fra'",
          "Erstatt 'funksjoner' med 'egenskaper'"] }]
  else []

/-- The style rules fired at `lix_score > 40`. -/
def writing_style_recs (m : RecMetrics) : List Recommendation :=
  if 40 < m.lix_score then
    [{ type := "writing_style", impact := "medium"
       examples :=
         ["Passiv: 'Beslutningen ble tatt av styret.'",
          "Aktiv: 'Styret tok beslutningen.'"] },
     { type := "flow_improvement", impact := "medium"
       examples :=
         ["Legge til: 'derfor', 'fordi', 'likevel', 'dessuten'",
          "Eksempel: 'Han kom for sent. Han mistet bussen.' → 'Han kom for sent fordi han mistet bussen.'"] }]
  else []

/-- The technical-language rules fired at `lix_score > 50`. -/
def technical_language_recs (m : RecMetrics) : List Recommendation :=
  if 50 < m.lix_score then
    [{ type := "technical_language", impact := "high"
       examples :=
         ["Forklar begreper når de introduseres: 'Kognitiv dissonans (følelsen av ubehag når man holder motstridende overbevisninger) er et vanlig psykologisk fenomen.'",
          "Bruk enklere synonymer når mulig"] },
     { type := "structure_improvement", impact := "high"
       examples :=
         ["Bruk overskrifter for å dele opp lange tekster",
          "Bruk punktlister for å presentere relatert informasjon",
          "Hold avsnitt under 4-5 setninger"] }]
  else []

/-- The visual-aids rule fired at `lix_score > 45`. -/
def visual_aids_recs (m : RecMetrics) : List Recommendation :=
  if 45 < m.lix_score then
    [{ type := "visual_aids", impact := "medium"
       examples :=
         ["Bruk diagrammer for å vise sammenhenger",
          "Bruk tabeller for å organisere data",
          "Legg til illustrasjoner for å forklare prosesser"] }]
  else []

/-- The user-context rules (education / business purposes). -/
def user_context_recs (m : RecMetrics) : List Recommendation :=
  match m.user_context with
  | some ctx =>
    if ctx.purpose == some "education" && decide (35 < m.lix_score) then
      [{ type := "educational_content", impact := "high"
         examples :=
           ["Legg til: 'For eksempel...' for å illustrere komplekse konsepter",
            "Bruk oppsummeringspunkter etter lengre avsnitt",
            "Inkluder visuelle hjelpemidler for å støtte teksten"] }]
    else if ctx.purpose == some "business" && decide (45 < m.lix_score) then
      [{ type := "business_communication", impact := "medium"
         examples :=
           ["Start med hovedpoenget i hvert avsnitt",
            "Bruk kulepunkter for viktige elementer",
            "Unngå passive formuleringer: 'Rapporten ble utarbeidet' → 'Vi utarbeidet rapporten'"] }]
    else []
  | none => []

/-- The RIX-specific rule fired at `rix_score > 4.0`. -/
def rix_recs (m : RecMetrics) : List Recommendation :=
  if 4.0 < m.rix_score then
    [{ type := "rix_recommendation", impact := "medium"
       examples :=
         ["Bruk kortere alternativer: 'anvende' → 'bruke'",
          "Varier mellom korte og lange ord for bedre rytme"] }]
  else []

/-- The positive-feedback stub appended when no rule fired (its two
branches differ only in free text projected away here). -/
def positive_feedback_recs (m : RecMetrics) : List Recommendation :=
  if m.lix_score < 30 then
    [{ type := "positive_feedback", impact := "low", examples := [] }]
  else
    [{ type := "positive_feedback", impact := "low", examples := [] }]

/-- Embeds `ReadabilityRecommender.generate`: the ordered, independent
rules appended in source order, with `simplified` threaded to the
sentence-structure rule, and a single positive-feedback item when no rule
fired. -/
def generate (m : RecMetrics) (simplified : Bool) : List Recommendation :=
  let recs :=
    sentence_structure_recs m simplified ++ word_complexity_recs m ++
    writing_style_recs m ++ technical_language_recs m ++ visual_aids_recs m ++
    user_context_recs m ++ rix_recs m
  if recs.isEmpty then positive_feedback_recs m else recs

end ReadabilityRecommender

/-- The states of `app/services/circuit_breaker.py`. -/
inductive CircuitState
  | CLOSED
  | OPEN
  | HALF_OPEN
deriving Repr, DecidableEq

/-- The mutable record of one `CircuitBreaker` instance; times are
rationals (seconds). -/
structure CircuitBreaker where
  max_failures : ℕ
  reset_timeout : ℚ
  failure_threshold : ℚ
  state : CircuitState
  failure_count : ℕ
  last_failure_time : ℚ
  request_count : ℕ
  success_count : ℕ
deriving Repr, DecidableEq

namespace CircuitBreaker

/-- A breaker as `__init__` builds it with the default parameters
(`max_failures = 5`, `reset_timeout = 60`,
`failure_threshold_percentage = 50`). -/
def init : CircuitBreaker :=
  { max_failures := 5, reset_timeout := 60, failure_threshold := 50
    state := .CLOSED, failure_count := 0, last_failure_time := 0
    request_count := 0, success_count := 0 }

/-- Embeds the `state` property: reading the state of an OPEN breaker after
the reset timeout has elapsed flips it to HALF_OPEN. -/
def getState (cb : CircuitBreaker) (now : ℚ) : CircuitBreaker × CircuitState :=
  if cb.state = .OPEN ∧ cb.reset_timeout < now - cb.last_failure_time then
    ({ cb with state := .HALF_OPEN }, .HALF_OPEN)
  else (cb, cb.state)

/-- Embeds `CircuitBreaker.success`: a HALF_OPEN trial success resets the
counters and closes the circuit; the subsequent CLOSED check (not an
`elif` in the source) then counts the success. -/
def success (cb : CircuitBreaker) : CircuitBreaker :=
  let cb :=
    if cb.state = .HALF_OPEN then
      { cb with failure_count := 0, state := .CLOSED
                request_count := 0, success_count := 0 }
    else cb
  if cb.state = .CLOSED then
    { cb with success_count := cb.success_count + 1
              request_count := cb.request_count + 1 }
  else cb

/-- Embeds `CircuitBreaker.failure`: record the failure, then trip from
CLOSED on the failure-count or failure-ratio condition, or reopen from
HALF_OPEN. -/
def failure (cb : CircuitBreaker) (now : ℚ) : CircuitBreaker :=
  let cb :=
    { cb with last_failure_time := now
              failure_count := cb.failure_count + 1
              request_count := cb.request_count + 1 }
  if cb.state = .CLOSED then
    if cb.max_failures ≤ cb.failure_count then { cb with state := .OPEN }
    else if 10 < cb.request_count ∧
        cb.failure_threshold <
          100 * ((cb.request_count : ℚ) - (cb.success_count : ℚ)) / (cb.request_count : ℚ) then
      { cb with state := .OPEN }
    else cb
  else if cb.state = .HALF_OPEN then { cb with state := .OPEN }
  else cb

/-- Embeds `CircuitBreaker.can_execute` (which reads the mutating `state`
property). -/
def can_execute (cb : CircuitBreaker) (now : ℚ) : CircuitBreaker × Bool :=
  let (cb, st) := cb.getState now
  (cb, st ≠ .OPEN)

/-- Run a breaker through a list of reported outcomes (`true` = success,
`false` = failure), each tagged with its time. -/
def run (cb : CircuitBreaker) : List (Bool × ℚ) → CircuitBreaker
  | [] => cb
  | (true, _) :: evs => run cb.success evs
  | (false, t) :: evs => run (cb.failure t) evs

/-- Longest run of consecutive failures in an outcome list. -/
def maxConsecutiveFailures (evs : List (Bool × ℚ)) : ℕ :=
  (evs.foldl
    (fun p e => match e.1 with
      | true => (0, p.2)
      | false => (p.1 + 1, max p.2 (p.1 + 1)))
    ((0 : ℕ), (0 : ℕ))).2

end CircuitBreaker

namespace TextParser

/-- Character class of the `TextParser` word pattern
`\b[a-zA-ZæøåÆØÅ0-9]+\b`. -/
def isTPWordClass (c : Char) : Bool :=
  c.isAlphanum || c == 'æ' || c == 'ø' || c == 'å' || c == 'Æ' || c == 'Ø' || c == 'Å'

/-- Embeds `TextParser.split_words`: on the lower-cased text, the pattern
`\b[a-zA-ZæøåÆØÅ0-9]+\b` matches exactly those maximal `\w`-runs that
consist only of class characters (word boundaries exist only at the ends
of maximal `\w`-runs). -/
def split_words (text : List Char) : List (List Char) :=
  (runsOf pyIsWordChar (text.map pyToLower) []).filter (fun w => w.all isTPWordClass)

/-- Worker for `TextParser.split_sentences` (fuel-based structural
recursion; the fuel is instantiated with the input length, which each step
strictly decreases). -/
def splitSentFuel : ℕ → List Char → Char → List Char → List (List Char)
  | _, [], _, acc => [acc.reverse]
  | 0, _ :: _, _, acc => [acc.reverse]
  | fuel + 1, c :: cs, prev, acc =>
    if pyIsSpaceChar c && isSentEnd prev then
      acc.reverse :: splitSentFuel fuel (cs.dropWhile pyIsSpaceChar) ' ' []
    else splitSentFuel fuel cs c (c :: acc)

/-- Embeds `TextParser.split_sentences`: split the stripped text at every
whitespace run preceded by `.`, `!` or `?` (`(?<=[.!?])\s+`), keeping
fragments that contain a non-whitespace character. -/
def split_sentences (text : List Char) : List (List Char) :=
  (splitSentFuel (pyStrip text).length (pyStrip text) ' ' []).filter containsNonSpace

end TextParser

namespace WordAnalyzer

/-- Embeds `WordAnalyzer.get_long_words` with its default
`min_length = 6.9` (words of 7+ characters) and with `min_length = 10`
(words of 11+ characters) as used by the statistics block. -/
def get_long_words (words : List (List Char)) (min_length : ℚ) : List (List Char) :=
  words.filter (fun w => min_length < (w.length : ℚ))

end WordAnalyzer

namespace TextAnalysisService

/-- The `statistics` block of `TextAnalysisService.analyze_text` (identical
in simple and detailed mode). -/
structure Statistics where
  word_count : ℕ
  sentence_count : ℕ
  avg_word_length : ℚ
  avg_sentence_length : ℚ
  long_words_percentage : ℚ
  very_long_words_percentage : ℚ
  readability_score : ℚ
  long_words_count : ℕ
deriving Repr, DecidableEq

/-- The all-zero statistics returned for empty (stripped) text. -/
def emptyStatistics : Statistics :=
  { word_count := 0, sentence_count := 0, avg_word_length := 0
    avg_sentence_length := 0, long_words_percentage := 0
    very_long_words_percentage := 0, readability_score := 0
    long_words_count := 0 }

/-- Embeds the statistics computation of
`TextAnalysisService.analyze_text` (words and sentences from
`TextParser`, long words from `WordAnalyzer`, LIX from `LixMetric`; the
`paragraph_count` field, unused by every caller the claims touch, is
omitted). -/
def statistics (text : List Char) : Statistics :=
  if (pyStrip text).isEmpty then emptyStatistics
  else
    let words := TextParser.split_words text
    let sentences := TextParser.split_sentences text
    let num_words := words.length
    let num_sentences := sentences.length
    let avg_word_length :=
      if num_words ≠ 0 then
        pyRound 2 (((words.map List.length).sum : ℚ) / (num_words : ℚ))
      else 0
    let avg_sentence_length :=
      if num_sentences ≠ 0 then pyRound 2 ((num_words : ℚ) / (num_sentences : ℚ)) else 0
    let long_words_count := (WordAnalyzer.get_long_words words 6.9).length
    let long_words_percentage :=
      if num_words ≠ 0 then
        pyRound 2 ((long_words_count : ℚ) / (num_words : ℚ) * 100)
      else 0
    let very_long_words_count := (WordAnalyzer.get_long_words words 10).length
    let very_long_words_percentage :=
      if num_words ≠ 0 then
        pyRound 2 ((very_long_words_count : ℚ) / (num_words : ℚ) * 100)
      else 0
    { word_count := num_words
      sentence_count := num_sentences
      avg_word_length := avg_word_length
      avg_sentence_length := avg_sentence_length
      long_words_percentage := long_words_percentage
      very_long_words_percentage := very_long_words_percentage
      readability_score := LixMetric.compute words num_sentences
      long_words_count := long_words_count }

end TextAnalysisService

/-- Python `str(bool)` as used in the WebSocket connection-cache key. -/
def pyBoolRepr (b : Bool) : String := if b then "True" else "False"

/-- Embeds `generate_cache_key` from `app/main.py`.  `hashlib.md5` is an
external standard-library primitive, so the hex digest function is a
parameter; every theorem below holds for an arbitrary digest function. -/
def generate_cache_key (md5hex : List Char → String) (text : List Char)
    (include_word_analysis include_sentence_analysis : Bool) : String :=
  "analysis:" ++ md5hex text ++
    ":w" ++ (if include_word_analysis then "1" else "0") ++
    ":s" ++ (if include_sentence_analysis then "1" else "0")

/-- The default `BACKGROUND_PROCESSING_THRESHOLD` (20,000 characters). -/
def BACKGROUND_PROCESSING_THRESHOLD : ℕ := 20000

/-- The composite result dict assembled by `/analyze` and by the
background worker: readability (with attached recommendations), the
text-analysis statistics, the two inclusion flags recording whether the
word/sentence analyses were kept, and the `cached` marker.  The
word/sentence analysis payloads themselves are beyond what any claim
consults and are not modelled. -/
structure AnalysisRecord where
  readability : ReadabilityService.ReadabilityResult
  recommendations : List Recommendation
  statistics : TextAnalysisService.Statistics
  has_word_analysis : Bool
  has_sentence_analysis : Bool
  cached : Bool
deriving Repr, DecidableEq

/-- A value stored in the Redis cache. -/
inductive RedisVal
  | analysis (record : AnalysisRecord)
  | taskStatus (status : String) (result : Option AnalysisRecord)
deriving Repr, DecidableEq

/-- The Redis cache, keyed by cache-key strings. -/
abbrev RedisCache := List (String × RedisVal)

/-- The job-handle object `/analyze` returns for oversized texts. -/
structure TaskResponse where
  task_id : String
  status : String
  polling_endpoint : String
  estimated_completion_seconds : ℕ
deriving Repr, DecidableEq

/-- The arguments `/analyze` hands to
`process_text_analysis_background`. -/
structure BgJob where
  task_id : String
  text : List Char
  include_word_analysis : Bool
  include_sentence_analysis : Bool
  cache_key : String
  user_context : Option UserContext
deriving Repr, DecidableEq

/-- The visible outcome of one `/analyze` request. -/
inductive AnalyzeOutcome
  | error (status_code : ℕ) (detail : String)
  | cached (value : RedisVal)
  | task (resp : TaskResponse) (job : BgJob)
  | immediate (record : AnalysisRecord) (cacheWrite : String × RedisVal)
deriving Repr, DecidableEq

/-- The recommender input assembled by `/analyze`, the worker and the
WebSocket path from a readability result and the statistics block. -/
def mkRecMetrics (readability : ReadabilityService.ReadabilityResult)
    (stats : TextAnalysisService.Statistics) (user_context : Option UserContext) :
    RecMetrics :=
  { lix_score := readability.lix.score
    rix_score := readability.rix.score
    avg_sentence_length := stats.avg_sentence_length
    long_words_percentage := stats.long_words_percentage
    user_context := user_context }

/-- The inline (small-text) branch of the `/analyze` handler: compute
readability, statistics and recommendations, and cache the assembled
record under the fingerprint. -/
def analyze_immediate (rcache : ReadabilityService.ResultCache) (text : List Char)
    (include_word_analysis include_sentence_analysis : Bool)
    (user_context : Option UserContext) (cache_key : String) : AnalyzeOutcome :=
  let readability := (ReadabilityService.get_readability rcache text).1
  let stats := TextAnalysisService.statistics text
  let recommendations :=
    ReadabilityRecommender.generate (mkRecMetrics readability stats user_context) false
  let record : AnalysisRecord :=
    { readability := readability, recommendations := recommendations
      statistics := stats
      has_word_analysis := include_word_analysis
      has_sentence_analysis := include_sentence_analysis
      cached := false }
  .immediate record (cache_key, .analysis record)

/-- Embeds the `POST /analyze` handler `analyze_text` of `app/main.py`:
strip, reject empty text, look the fingerprint up in the cache, divert
texts beyond the background threshold to a background job, and otherwise
analyze inline.  The class-level readability cache is passed in; `now` is
the wall-clock reading. -/
def analyze_text (md5hex : List Char → String) (redisCache : RedisCache)
    (rcache : ReadabilityService.ResultCache) (text_raw : List Char)
    (include_word_analysis include_sentence_analysis : Bool)
    (user_context : Option UserContext) (now : ℚ) : AnalyzeOutcome :=
  let text := pyStrip text_raw
  if text.isEmpty then .error 400 "No text provided"
  else
    let cache_key :=
      generate_cache_key md5hex text include_word_analysis include_sentence_analysis
    match redisCache.lookup cache_key with
    | some v => .cached v
    | none =>
      if BACKGROUND_PROCESSING_THRESHOLD < text.length then
        let task_id := "task-" ++ (md5hex text).take 10 ++ "-" ++ toString ⌊now⌋
        .task
          { task_id := task_id, status := "processing"
            polling_endpoint := "/task/" ++ task_id
            estimated_completion_seconds := max 5 (text.length / 10000) }
          { task_id := task_id, text := text
            include_word_analysis := include_word_analysis
            include_sentence_analysis := include_sentence_analysis
            cache_key := cache_key, user_context := user_context }
      else
        analyze_immediate rcache text include_word_analysis include_sentence_analysis
          user_context cache_key

/-- Embeds `process_text_analysis_background`: compute the full analysis
of the job's text — forwarding the job's `user_context` into the
recommender's metrics dict — and write it to the cache under the job's
cache key, then mark the task record completed. -/
def process_text_analysis_background (rcache : ReadabilityService.ResultCache)
    (job : BgJob) : List (String × RedisVal) :=
  let readability := (ReadabilityService.get_readability rcache job.text).1
  let stats := TextAnalysisService.statistics job.text
  let recommendations :=
    ReadabilityRecommender.generate
      (mkRecMetrics readability stats job.user_context) false
  let record : AnalysisRecord :=
    { readability := readability, recommendations := recommendations
      statistics := stats
      has_word_analysis := job.include_word_analysis
      has_sentence_analysis := job.include_sentence_analysis
      cached := false }
  [(job.cache_key, .analysis record),
   ("task_status:" ++ job.task_id, .taskStatus "completed" (some record))]

/-- One entry of a batch request. -/
structure BatchItem where
  id : String
  content : List Char
deriving Repr, DecidableEq

/-- The acknowledgement `POST /analyze/batch` returns for an accepted
batch. -/
structure BatchAcceptResponse where
  job_id : String
  status : String
  texts_count : ℕ
  estimated_time : ℚ
deriving Repr, DecidableEq

/-- The `batch_job:<id>` record stored in Redis when a batch is
admitted. -/
structure BatchJob where
  status : String
  total : ℕ
  completed : ℕ
  failed : ℕ
  priority : ℤ
deriving Repr, DecidableEq

/-- The visible outcome of one `POST /analyze/batch` request. -/
inductive BatchOutcome
  | error (status_code : ℕ) (detail : String)
  | accepted (resp : BatchAcceptResponse) (job : BatchJob)
deriving Repr, DecidableEq

/-- Embeds `estimate_processing_time`. -/
def estimate_processing_time (text_count : ℕ) : ℚ := 2.0 + 0.5 * text_count

/-- Embeds the first-registered `POST /analyze/batch` handler
`analyze_text_batch` (FastAPI dispatches to the first registered route for
a duplicated path, so the later duplicate `analyze_texts_batch` is dead
code): reject empty batches and batches beyond 100 items before any job
state is written, otherwise store the job record with the priority clamped
into [1, 10].  The randomly generated job id is a parameter. -/
def analyze_text_batch (job_id : String) (texts : List BatchItem) (priority : ℤ) :
    BatchOutcome :=
  if texts.length = 0 then .error 400 "Batch cannot be empty"
  else if 100 < texts.length then .error 400 "Batch size cannot exceed 100 texts"
  else
    .accepted
      { job_id := job_id, status := "queued", texts_count := texts.length
        estimated_time := estimate_processing_time texts.length }
      { status := "queued", total := texts.length, completed := 0, failed := 0
        priority := min (max priority 1) 10 }

/-- One inbound WebSocket message (payload fields of `/ws/analyze`). -/
structure WsMessage where
  text : List Char
  include_word_analysis : Bool
  include_sentence_analysis : Bool
  user_context : Option UserContext
deriving Repr, DecidableEq

/-- A payload the WebSocket handler may send (and store in the
per-connection cache). -/
inductive WsPayload
  | cachedAnalysis (value : RedisVal)
  | partialResult (readability : ReadabilityService.ReadabilityResult)
  | fullResult (record : AnalysisRecord)
deriving Repr, DecidableEq

/-- One outbound WebSocket frame. -/
inductive WsOut
  | errorNoText
  | payload (p : WsPayload)
deriving Repr, DecidableEq

/-- The per-connection state of the `/ws/analyze` session loop. -/
structure WSState where
  last_text : List Char
  last_text_length : ℕ
  last_word_count : ℕ
  last_process_time : ℚ
  debounce_time : ℚ
  connection_cache : List (String × WsPayload)
deriving Repr, DecidableEq

/-- The minimum debounce window (100 ms). -/
def min_debounce_time : ℚ := 0.1

/-- The maximum debounce window (800 ms). -/
def max_debounce_time : ℚ := 0.8

/-- The session state right after the connection is accepted. -/
def wsInitState (connect_time : ℚ) : WSState :=
  { last_text := [], last_text_length := 0, last_word_count := 0
    last_process_time := connect_time, debounce_time := 0.2
    connection_cache := [] }

/-- The load-adaptive debounce computation of the WebSocket loop, before
the text-length multiplier: the maximum under high load, a linear
interpolation under medium load, the minimum otherwise. -/
def adaptive_debounce (system_load : ℚ) : ℚ :=
  if 0.8 < system_load then max_debounce_time
  else if 0.5 < system_load then
    min_debounce_time +
      (max_debounce_time - min_debounce_time) * (system_load - 0.5) / 0.3
  else min_debounce_time

/-- A scheduled `process_detailed_analysis` background task for a very
long streamed text. -/
structure DetailedBg where
  text : List Char
  include_word_analysis : Bool
  include_sentence_analysis : Bool
  cache_key : String
deriving Repr, DecidableEq

/-- Everything one iteration of the WebSocket loop produces. -/
structure WsStepResult where
  state : WSState
  replies : List WsOut
  rcache : ReadabilityService.ResultCache
  redisWrites : List (String × RedisVal)
  backgroundDetailed : Option DetailedBg
deriving Repr, DecidableEq

/-- The tail of the WebSocket iteration once both caches have missed:
optionally reuse the readability computed for the partial result, build
the statistics, generate simplified recommendations only when the word
count exceeds 15 and more than 700 ms have passed, cache and send the
detailed result, and update the tracking variables. -/
def wsFullPath (s : WSState) (msg : WsMessage) (text : List Char)
    (current_time time_since_last debounce_time : ℚ)
    (cache_key global_cache_key : String)
    (rcache : ReadabilityService.ResultCache)
    (readabilityOpt : Option ReadabilityService.ReadabilityResult)
    (pre_replies : List WsOut) : WsStepResult :=
  let words := ReadabilityService.extract_words text
  let word_count := words.length
  let stats := TextAnalysisService.statistics text
  let recStep :
      List Recommendation × Option ReadabilityService.ReadabilityResult ×
        ReadabilityService.ResultCache :=
    if 15 < word_count ∧ (0.7 : ℚ) < time_since_last then
      match readabilityOpt with
      | some r => (ReadabilityRecommender.generate (mkRecMetrics r stats msg.user_context) true,
                   some r, rcache)
      | none =>
        let pr := ReadabilityService.get_readability rcache text
        (ReadabilityRecommender.generate (mkRecMetrics pr.1 stats msg.user_context) true,
         some pr.1, pr.2)
    else ([], readabilityOpt, rcache)
  let recommendations := recStep.1
  let readabilityStep :
      ReadabilityService.ReadabilityResult × ReadabilityService.ResultCache :=
    match recStep.2.1 with
    | some r => (r, recStep.2.2)
    | none => ReadabilityService.get_readability recStep.2.2 text
  let record : AnalysisRecord :=
    { readability := readabilityStep.1, recommendations := recommendations
      statistics := stats
      has_word_analysis := msg.include_word_analysis
      has_sentence_analysis := msg.include_sentence_analysis
      cached := false }
  { state :=
      { last_text := text, last_text_length := text.length
        last_word_count := word_count, last_process_time := current_time
        debounce_time := debounce_time
        connection_cache := s.connection_cache ++ [(cache_key, .fullResult record)] }
    replies := pre_replies ++ [.payload (.fullResult record)]
    rcache := readabilityStep.2
    redisWrites := [(global_cache_key, .analysis record)]
    backgroundDetailed := none }

/-- Embeds one iteration of the `/ws/analyze` loop: reject empty text,
drop a text identical to the last processed one, drop an early message
whose length change is not significant, recompute the adaptive debounce,
then answer from the connection cache, the global cache, or fresh
analysis (with a partial result first for long or rapid-fire texts and a
deferred detailed pass for very long ones). -/
def websocket_step (md5hex : List Char → String) (redisCache : RedisCache)
    (rcache : ReadabilityService.ResultCache)
    (cpu_percent memory_percent : ℚ) (now : ℚ)
    (s : WSState) (msg : WsMessage) : WsStepResult :=
  let text := pyStrip msg.text
  if text.isEmpty then
    { state := s, replies := [.errorNoText], rcache := rcache
      redisWrites := [], backgroundDetailed := none }
  else if text = s.last_text then
    { state := s, replies := [], rcache := rcache
      redisWrites := [], backgroundDetailed := none }
  else
    let current_time := now
    let time_since_last := current_time - s.last_process_time
    let text_length := text.length
    let text_length_change_ratio : ℚ :=
      (((text_length : ℤ) - (s.last_text_length : ℤ)).natAbs : ℚ) /
        ((max 1 s.last_text_length : ℕ) : ℚ)
    let significant_change := (0.15 : ℚ) < text_length_change_ratio
    if time_since_last < s.debounce_time ∧ ¬ significant_change then
      { state := s, replies := [], rcache := rcache
        redisWrites := [], backgroundDetailed := none }
    else
      let system_load := (cpu_percent / 100 + memory_percent / 100) / 2
      let debounce_time := adaptive_debounce system_load
      let debounce_time :=
        if 5000 < text_length then debounce_time * 1.2 else debounce_time
      let cache_key :=
        String.mk (text.take 50) ++ "_" ++ natStr text_length ++ "_" ++
          pyBoolRepr msg.include_word_analysis ++ "_" ++
          pyBoolRepr msg.include_sentence_analysis
      match s.connection_cache.lookup cache_key with
      | some result =>
        { state := { s with debounce_time := debounce_time
                            last_process_time := current_time
                            last_text := text, last_text_length := text_length }
          replies := [.payload result], rcache := rcache
          redisWrites := [], backgroundDetailed := none }
      | none =>
        let global_cache_key :=
          generate_cache_key md5hex text msg.include_word_analysis
            msg.include_sentence_analysis
        match redisCache.lookup global_cache_key with
        | some v =>
          let result := WsPayload.cachedAnalysis v
          let connection_cache := s.connection_cache ++ [(cache_key, result)]
          let connection_cache :=
            if 20 < connection_cache.length then [] else connection_cache
          { state := { s with debounce_time := debounce_time
                              connection_cache := connection_cache
                              last_process_time := current_time
                              last_text := text, last_text_length := text_length }
            replies := [.payload result], rcache := rcache
            redisWrites := [], backgroundDetailed := none }
        | none =>
          let is_incremental := 1000 < text.length ∨ time_since_last < (0.5 : ℚ)
          if is_incremental then
            let pr := ReadabilityService.get_readability rcache text
            let partialReply := WsOut.payload (.partialResult pr.1)
            if 10000 < text.length then
              { state := { s with debounce_time := debounce_time
                                  last_process_time := current_time
                                  last_text := text, last_text_length := text_length }
                replies := [partialReply], rcache := pr.2
                redisWrites := []
                backgroundDetailed := some
                  { text := text
                    include_word_analysis := msg.include_word_analysis
                    include_sentence_analysis := msg.include_sentence_analysis
                    cache_key := global_cache_key } }
            else
              wsFullPath s msg text current_time time_since_last debounce_time
                cache_key global_cache_key pr.2 (some pr.1) [partialReply]
          else
            wsFullPath s msg text current_time time_since_last debounce_time
              cache_key global_cache_key rcache none []

/-- Statement helper: the band position of a score relative to four
ascending thresholds (0 = easiest band, 4 = hardest). -/
def bandIndex (t1 t2 t3 t4 score : ℚ) : ℕ :=
  if score < t1 then 0
  else if score < t2 then 1
  else if score < t3 then 2
  else if score < t4 then 3
  else 4

/-- Statement helper: the ordered category labels produced by
`RIXMetric.classify`. -/
def RIX_CATEGORIES : List String :=
  ["Svært lett", "Lett", "Middels", "Vanskelig", "Svært vanskelig"]

section ClaimTheorems

attribute [local semireducible] Rat.mul Rat.add Rat.sub Rat.inv Rat.ofScientific

/-- A word has more than 6.9 characters exactly when it has 7 or more. -/
theorem long_word_69_iff (n : ℕ) : ((6.9 : ℚ) < (n : ℚ)) ↔ 7 ≤ n := by
  constructor
  · intro h
    by_contra hn
    push_neg at hn
    have h6 : (n : ℚ) ≤ 6 := by exact_mod_cast Nat.lt_succ_iff.mp hn
    have : (6.9 : ℚ) ≤ 6 := le_trans h.le h6
    norm_num at this
  · intro h
    have h7 : (7 : ℚ) ≤ (n : ℚ) := by exact_mod_cast h
    have : (6.9 : ℚ) < 7 := by norm_num
    linarith

/-- C1.  The LIX kernel returns `W/S + 100·L/W` rounded to one decimal
when there is at least one word and a nonzero sentence count, and 0 when
the word list is empty or the sentence count is 0; on the scenario text
`"Hei. Dette er en test."` (5 words, 2 sentences, no long words) it yields
2.5, classified "svært lett". -/
theorem claim_C1_lix_kernel :
    (∀ (words : List (List Char)) (sentence_count : ℕ),
        words ≠ [] → sentence_count ≠ 0 →
        LixMetric.compute words sentence_count =
          pyRound 1 ((words.length : ℚ) / (sentence_count : ℚ) +
            100 * ((words.filter (fun w => 6 < w.length)).length : ℚ) /
              (words.length : ℚ))) ∧
    (∀ sentence_count, LixMetric.compute [] sentence_count = 0) ∧
    (∀ words, LixMetric.compute words 0 = 0) ∧
    ((ReadabilityService.extract_words "Hei. Dette er en test.".data).length = 5 ∧
      ReadabilityService.get_sentence_count "Hei. Dette er en test.".data = 2 ∧
      (ReadabilityService.extract_words "Hei. Dette er en test.".data).filter
        (fun w => 6 < w.length) = [] ∧
      LixMetric.compute (ReadabilityService.extract_words "Hei. Dette er en test.".data)
        (ReadabilityService.get_sentence_count "Hei. Dette er en test.".data) = 2.5 ∧
      (LixMetric.classify 2.5).category = "svært lett") := by
  refine ⟨?_, ?_, ?_, by decide⟩
  · intro words sentence_count hw hs
    have hne : words.isEmpty = false := by
      simpa [List.isEmpty_iff] using hw
    simp only [LixMetric.compute, hne, hs, LixMetric.LONG_WORD_THRESHOLD, Bool.false_or,
      decide_eq_true_eq, if_neg, Bool.or_self, decide_eq_false_iff_not, not_false_eq_true,
      if_false]
    congr 1
    ring
  · intro sentence_count
    simp [LixMetric.compute]
  · intro words
    simp [LixMetric.compute]

/-- Witness for C1: the kernel theorem applied to a concrete one-word,
one-sentence input. -/
theorem claim_C1_lix_kernel_witness :
    LixMetric.compute [['H', 'e', 'i']] 1 = 1 := by
  have h := claim_C1_lix_kernel.1 [['H', 'e', 'i']] 1 (by decide) (by decide)
  rw [h]
  decide

/-- C2 (code bug).  On the scenario text the LIX band is "svært lett" and
the RIX band is "Svært lett" — semantically the same level — yet the
combined description is the `except ValueError` fallback naming both
levels, not the canned same-band text: the capitalised RIX categories
never occur in `_CATEGORIES`, so the band-comparison branches are
unreachable. -/
theorem claim_C2_combined_description_fallback :
    (ReadabilityService.get_readability [] "Hei. Dette er en test.".data).1.lix.category =
        "svært lett" ∧
    (ReadabilityService.get_readability [] "Hei. Dette er en test.".data).1.rix.category =
        "Svært lett" ∧
    ReadabilityService.CATEGORIES.findIdx?
        (· == (ReadabilityService.get_readability [] "Hei. Dette er en test.".data).1.rix.category) =
      none ∧
    (ReadabilityService.get_readability [] "Hei. Dette er en test.".data).1.combined_description =
      "Teksten har varierende lesbarhet: LIX-nivå svært lett, RIX-nivå Svært lett." ∧
    (ReadabilityService.get_readability [] "Hei. Dette er en test.".data).1.combined_description ≠
      "Teksten er konsistent svært lettlest og tilgjengelig for alle lesere." := by
  decide

/-- C3.  The RIX kernel divides the count of words of 7+ characters by the
sentence count and rounds to two decimals (0 when the sentence count is
0), and the RIX bands change exactly at 1.5 / 3.0 / 4.5 / 6.0, in the same
band positions as the LIX thresholds 20 / 30 / 40 / 50. -/
theorem claim_C3_rix_kernel :
    (∀ (words : List (List Char)) (sentence_count : ℕ), sentence_count ≠ 0 →
        RIXMetric.compute words sentence_count =
          pyRound 2 (((words.filter (fun w => 7 ≤ w.length)).length : ℚ) /
            (sentence_count : ℚ))) ∧
    (∀ words, RIXMetric.compute words 0 = 0) ∧
    (∀ score : ℚ,
        RIX_CATEGORIES.findIdx? (· == (RIXMetric.classify score).category) =
          some (bandIndex 1.5 3.0 4.5 6.0 score) ∧
        ReadabilityService.CATEGORIES.findIdx? (· == (LixMetric.classify score).category) =
          some (bandIndex 20 30 40 50 score)) := by
  refine ⟨?_, ?_, ?_⟩
  · intro words sentence_count hs
    have hfilter :
        words.filter (fun w => decide ((6.9 : ℚ) < (w.length : ℚ))) =
          words.filter (fun w => 7 ≤ w.length) := by
      apply List.filter_congr
      intro w _
      simp [long_word_69_iff]
    simp only [RIXMetric.compute, RIXMetric.get_long_words, hs, if_neg, hfilter,
      not_false_eq_true]
  · intro words
    simp [RIXMetric.compute]
  · intro score
    constructor
    · simp only [RIXMetric.classify, RIXMetric.very_easy, RIXMetric.easy, RIXMetric.medium,
        RIXMetric.difficult, bandIndex]
      split_ifs <;> rfl
    · simp only [LixMetric.classify, LixMetric.very_easy, LixMetric.easy, LixMetric.medium,
        LixMetric.difficult, bandIndex, ReadabilityService.CATEGORIES]
      split_ifs <;> rfl

/-- Witness for C3: the kernel theorem applied to one 7-letter word over
two sentences. -/
theorem claim_C3_rix_kernel_witness :
    RIXMetric.compute [['o', 'm', 'r', 'å', 'd', 'e', 't']] 2 = 0.5 := by
  have h := claim_C3_rix_kernel.1 [['o', 'm', 'r', 'å', 'd', 'e', 't']] 2 (by decide)
  rw [h]
  decide

/-- C4 (counterexample).  A whitespace-only text of length 104 shares its
cache key with a previously analyzed text of 101 spaces followed by "abc",
so the whitespace-only call is served the cached analysis: LIX score 1 and
band "svært lett" instead of score 0 and "ikke tilgjengelig". -/
theorem claim_C4_empty_input_counterexample :
    (List.replicate 104 ' ').all pyIsSpaceChar = true ∧
    ReadabilityService.get_cache_key (List.replicate 104 ' ') =
      ReadabilityService.get_cache_key (List.replicate 101 ' ' ++ "abc".data) ∧
    ((ReadabilityService.get_readability
        (ReadabilityService.get_readability [] (List.replicate 101 ' ' ++ "abc".data)).2
        (List.replicate 104 ' ')).1.lix.score = 1 ∧
      (ReadabilityService.get_readability
        (ReadabilityService.get_readability [] (List.replicate 101 ' ' ++ "abc".data)).2
        (List.replicate 104 ' ')).1.lix.category ≠ "ikke tilgjengelig") := by
  decide

/-- C4 (amended).  When no cached entry shadows the text's cache key — in
particular on a fresh service — every empty or whitespace-only text gets
the score-0 / "ikke tilgjengelig" result for both LIX and RIX; and
whenever none of the recommender's rules fires, it returns exactly one
positive_feedback recommendation. -/
theorem claim_C4_empty_input_amended :
    (∀ (cache : ReadabilityService.ResultCache) (text : List Char),
        (text.isEmpty || text.all pyIsSpaceChar) = true →
        cache.lookup (ReadabilityService.get_cache_key text) = none →
        (ReadabilityService.get_readability cache text).1 =
          ReadabilityService.emptyResult ∧
        (ReadabilityService.get_readability cache text).1.lix.score = 0 ∧
        (ReadabilityService.get_readability cache text).1.lix.category =
          "ikke tilgjengelig" ∧
        (ReadabilityService.get_readability cache text).1.rix.score = 0 ∧
        (ReadabilityService.get_readability cache text).1.rix.category =
          "ikke tilgjengelig") ∧
    (∀ (m : RecMetrics) (simplified : Bool),
        ¬ 18 < m.avg_sentence_length →
        ¬ 25 < m.long_words_percentage →
        ¬ 40 < m.lix_score →
        ¬ 50 < m.lix_score →
        ¬ 45 < m.lix_score →
        (∀ ctx, m.user_context = some ctx →
          ¬ (ctx.purpose = some "education" ∧ 35 < m.lix_score) ∧
          ¬ (ctx.purpose = some "business" ∧ 45 < m.lix_score)) →
        ¬ 4.0 < m.rix_score →
        ReadabilityRecommender.generate m simplified =
          [{ type := "positive_feedback", impact := "low", examples := [] }]) := by
  constructor
  · intro cache text hempty hmiss
    have hres :
        (ReadabilityService.get_readability cache text).1 =
          ReadabilityService.emptyResult := by
      simp [ReadabilityService.get_readability, hmiss, hempty]
    exact ⟨hres, by rw [hres]; decide, by rw [hres]; decide,
      by rw [hres]; decide, by rw [hres]; decide⟩
  · intro m simplified h1 h2 h3 h4 h5 h6 h7
    have e1 : ReadabilityRecommender.sentence_structure_recs m simplified = [] := by
      simp [ReadabilityRecommender.sentence_structure_recs, h1]
    have e2 : ReadabilityRecommender.word_complexity_recs m = [] := by
      simp [ReadabilityRecommender.word_complexity_recs, h2]
    have e3 : ReadabilityRecommender.writing_style_recs m = [] := by
      simp [ReadabilityRecommender.writing_style_recs, h3]
    have e4 : ReadabilityRecommender.technical_language_recs m = [] := by
      simp [ReadabilityRecommender.technical_language_recs, h4]
    have e5 : ReadabilityRecommender.visual_aids_recs m = [] := by
      simp [ReadabilityRecommender.visual_aids_recs, h5]
    have e6 : ReadabilityRecommender.user_context_recs m = [] := by
      unfold ReadabilityRecommender.user_context_recs
      cases hu : m.user_context with
      | none => rfl
      | some ctx =>
        obtain ⟨he, hb⟩ := h6 ctx hu
        have he' : (ctx.purpose == some "education" && decide (35 < m.lix_score)) = false := by
          simp only [Bool.and_eq_false_iff, beq_eq_false_iff_ne, ne_eq,
            decide_eq_false_iff_not]
          tauto
        have hb' : (ctx.purpose == some "business" && decide (45 < m.lix_score)) = false := by
          simp only [Bool.and_eq_false_iff, beq_eq_false_iff_ne, ne_eq,
            decide_eq_false_iff_not]
          tauto
        simp [he', hb']
    have e7 : ReadabilityRecommender.rix_recs m = [] := by
      simp [ReadabilityRecommender.rix_recs, h7]
    simp [ReadabilityRecommender.generate, e1, e2, e3, e4, e5, e6, e7,
      ReadabilityRecommender.positive_feedback_recs, ite_self]

/-- Witness for the amended C4: a fresh cache with the text `" "`, and the
all-zero metrics for the recommender. -/
theorem claim_C4_empty_input_witness :
    (ReadabilityService.get_readability [] [' ']).1 = ReadabilityService.emptyResult ∧
    ReadabilityRecommender.generate
        { lix_score := 0, rix_score := 0, avg_sentence_length := 0
          long_words_percentage := 0, user_context := none } false =
      [{ type := "positive_feedback", impact := "low", examples := [] }] := by
  constructor
  · exact (claim_C4_empty_input_amended.1 [] [' '] (by decide) (by simp)).1
  · exact claim_C4_empty_input_amended.2
      { lix_score := 0, rix_score := 0, avg_sentence_length := 0
        long_words_percentage := 0, user_context := none } false
      (by norm_num) (by norm_num) (by norm_num) (by norm_num) (by norm_num)
      (by intro ctx h; cases h) (by norm_num)

/-- C5 (code bug).  With the default parameters, a run of ten alternating
success/failure outcomes — never two consecutive failures, ten observed
requests, failure ratio exactly 50 % — opens the breaker, because
`failure()` counts failures cumulatively (success in Closed never resets
`_failure_count`), contradicting both the claim's "consecutive failures"
trip condition (its own docstring's words) and its "ratio exceeds 50 %"
condition. -/
theorem claim_C5_cumulative_failures_trip :
    (CircuitBreaker.run CircuitBreaker.init
        [(true, 0), (false, 0), (true, 0), (false, 0), (true, 0),
         (false, 0), (true, 0), (false, 0), (true, 0), (false, 0)]).state =
      CircuitState.OPEN ∧
    CircuitBreaker.maxConsecutiveFailures
        [(true, 0), (false, 0), (true, 0), (false, 0), (true, 0),
         (false, 0), (true, 0), (false, 0), (true, 0), (false, 0)] = 1 ∧
    CircuitBreaker.init.max_failures = 5 ∧
    (CircuitBreaker.run CircuitBreaker.init
        [(true, 0), (false, 0), (true, 0), (false, 0), (true, 0),
         (false, 0), (true, 0), (false, 0), (true, 0), (false, 0)]).request_count = 10 ∧
    (CircuitBreaker.run CircuitBreaker.init
        [(true, 0), (false, 0), (true, 0), (false, 0), (true, 0),
         (false, 0), (true, 0), (false, 0), (true, 0), (false, 0)]).failure_count = 5 ∧
    ¬ CircuitBreaker.init.failure_threshold < 100 * (((10 : ℚ) - 5) / 10) := by
  refine ⟨by decide, by decide, by decide, by decide, by decide, ?_⟩
  simp only [CircuitBreaker.init]
  norm_num

/-- C6.  The first-registered batch endpoint rejects an empty batch and a
batch of more than 100 texts with a 400 error before creating any job
state, and stores every accepted batch with the priority clamped into
[1, 10]. -/
theorem claim_C6_batch_bounds :
    (∀ (job_id : String) (priority : ℤ),
        analyze_text_batch job_id [] priority =
          .error 400 "Batch cannot be empty") ∧
    (∀ (job_id : String) (texts : List BatchItem) (priority : ℤ),
        100 < texts.length →
        analyze_text_batch job_id texts priority =
          .error 400 "Batch size cannot exceed 100 texts") ∧
    (∀ (job_id : String) (texts : List BatchItem) (priority : ℤ),
        texts ≠ [] → texts.length ≤ 100 →
        ∃ resp job,
          analyze_text_batch job_id texts priority = .accepted resp job ∧
          job.priority = min (max priority 1) 10 ∧
          1 ≤ job.priority ∧ job.priority ≤ 10 ∧
          job.status = "queued" ∧ resp.status = "queued" ∧
          job.total = texts.length ∧ resp.texts_count = texts.length) := by
  refine ⟨?_, ?_, ?_⟩
  · intro job_id priority
    simp [analyze_text_batch]
  · intro job_id texts priority h
    have h0 : texts.length ≠ 0 := by omega
    simp [analyze_text_batch, h0, h]
  · intro job_id texts priority hne hle
    have h0 : texts.length ≠ 0 := by
      simpa [List.length_eq_zero] using hne
    have h100 : ¬ 100 < texts.length := by omega
    have heq : analyze_text_batch job_id texts priority =
        .accepted
          { job_id := job_id, status := "queued", texts_count := texts.length
            estimated_time := estimate_processing_time texts.length }
          { status := "queued", total := texts.length, completed := 0, failed := 0
            priority := min (max priority 1) 10 } := by
      simp [analyze_text_batch, h0, h100]
    exact ⟨_, _, heq, rfl, by dsimp only; omega, by dsimp only; omega, rfl, rfl, rfl, rfl⟩

/-- Witness for C6: an empty batch, a batch of 101 items, and an accepted
singleton batch with requested priority 15 stored as 10. -/
theorem claim_C6_batch_bounds_witness :
    analyze_text_batch "job" [] 3 = .error 400 "Batch cannot be empty" ∧
    analyze_text_batch "job" (List.replicate 101 { id := "a", content := ['x'] }) 3 =
      .error 400 "Batch size cannot exceed 100 texts" ∧
    ∃ resp job,
      analyze_text_batch "job" [{ id := "a", content := ['x'] }] 15 =
        .accepted resp job ∧ job.priority = 10 := by
  refine ⟨claim_C6_batch_bounds.1 "job" 3,
    claim_C6_batch_bounds.2.1 "job" _ 3 (by simp), ?_⟩
  obtain ⟨resp, job, heq, hp, -⟩ :=
    claim_C6_batch_bounds.2.2 "job" [{ id := "a", content := ['x'] }] 15
      (by simp) (by simp)
  exact ⟨resp, job, heq, by rw [hp]; decide⟩

/-- Stripping a run of a non-whitespace character changes nothing. -/
theorem pyStrip_replicate_nonspace (n : ℕ) (c : Char) (h : pyIsSpaceChar c = false) :
    pyStrip (List.replicate n c) = List.replicate n c := by
  have hdrop : (List.replicate n c).dropWhile pyIsSpaceChar = List.replicate n c := by
    cases n with
    | zero => rfl
    | succ m =>
      rw [List.replicate_succ, List.dropWhile_cons]
      simp [h]
  unfold pyStrip
  rw [hdrop, List.reverse_replicate, hdrop, List.reverse_replicate]

set_option maxRecDepth 2048 in
/-- C7.  A trimmed text beyond the background threshold whose fingerprint
misses the cache is answered with a task handle (status "processing",
polling endpoint derived from the task id, bounded completion estimate),
and the scheduled background worker writes the completed record to the
cache under exactly the cache key the synchronous path computed for that
(text, options) pair, plus a completed task-status record. -/
theorem claim_C7_background_processing :
    ∀ (md5hex : List Char → String) (redisCache : RedisCache)
      (rcache : ReadabilityService.ResultCache) (text_raw : List Char)
      (w s : Bool) (uc : Option UserContext) (now : ℚ),
      redisCache.lookup (generate_cache_key md5hex (pyStrip text_raw) w s) = none →
      BACKGROUND_PROCESSING_THRESHOLD < (pyStrip text_raw).length →
      ∃ resp job,
        analyze_text md5hex redisCache rcache text_raw w s uc now = .task resp job ∧
        resp.status = "processing" ∧
        resp.polling_endpoint = "/task/" ++ resp.task_id ∧
        resp.estimated_completion_seconds = max 5 ((pyStrip text_raw).length / 10000) ∧
        job.cache_key = generate_cache_key md5hex (pyStrip text_raw) w s ∧
        job.text = pyStrip text_raw ∧
        ∃ record,
          process_text_analysis_background rcache job =
            [(generate_cache_key md5hex (pyStrip text_raw) w s, .analysis record),
             ("task_status:" ++ job.task_id, .taskStatus "completed" (some record))] ∧
          record.cached = false := by
  intro md5hex redisCache rcache text_raw w s uc now hmiss hlen
  have hne : (pyStrip text_raw).isEmpty = false := by
    cases h : pyStrip text_raw with
    | nil => rw [h] at hlen; simp [BACKGROUND_PROCESSING_THRESHOLD] at hlen
    | cons c cs => rfl
  refine
    ⟨{ task_id := "task-" ++ (md5hex (pyStrip text_raw)).take 10 ++ "-" ++ toString ⌊now⌋
       status := "processing"
       polling_endpoint :=
         "/task/" ++ ("task-" ++ (md5hex (pyStrip text_raw)).take 10 ++ "-" ++ toString ⌊now⌋)
       estimated_completion_seconds := max 5 ((pyStrip text_raw).length / 10000) },
     { task_id := "task-" ++ (md5hex (pyStrip text_raw)).take 10 ++ "-" ++ toString ⌊now⌋
       text := pyStrip text_raw
       include_word_analysis := w, include_sentence_analysis := s
       cache_key := generate_cache_key md5hex (pyStrip text_raw) w s
       user_context := uc }, ?_, rfl, rfl, rfl, rfl, rfl, ?_⟩
  · simp only [analyze_text, hne, hmiss, hlen, Bool.false_eq_true, if_false, if_true]
  · exact ⟨_, rfl, rfl⟩

set_option maxRecDepth 2048 in
/-- Witness for C7: a 20,001-character text against empty caches (with a
trivial digest function). -/
theorem claim_C7_background_processing_witness :
    ∃ resp job,
      analyze_text (fun _ => "d") [] [] (List.replicate 20001 'a') false false none 0 =
        .task resp job ∧
      job.cache_key =
        generate_cache_key (fun _ => "d") (pyStrip (List.replicate 20001 'a')) false false := by
  have hlen : BACKGROUND_PROCESSING_THRESHOLD < (pyStrip (List.replicate 20001 'a')).length := by
    rw [pyStrip_replicate_nonspace 20001 'a' (by decide), List.length_replicate]
    norm_num [BACKGROUND_PROCESSING_THRESHOLD]
  obtain ⟨resp, job, h1, -, -, -, h5, -, -⟩ :=
    claim_C7_background_processing (fun _ => "d") [] [] (List.replicate 20001 'a')
      false false none 0 rfl hlen
  exact ⟨resp, job, h1, h5⟩

/-- C8.  In a streaming session: a message equal (after trimming) to the
last processed text is dropped with no reply and no state change; a
message arriving inside the debounce window whose relative length change
is below 15 % is likewise dropped; and the load-adaptive debounce value
always lies in [100 ms, 800 ms] before the length multiplier. -/
theorem claim_C8_streaming_debounce :
    (∀ (md5hex : List Char → String) (redisCache : RedisCache)
        (rcache : ReadabilityService.ResultCache) (cpu mem now : ℚ)
        (st : WSState) (msg : WsMessage),
        st.last_text ≠ [] →
        pyStrip msg.text = st.last_text →
        websocket_step md5hex redisCache rcache cpu mem now st msg =
          { state := st, replies := [], rcache := rcache
            redisWrites := [], backgroundDetailed := none }) ∧
    (∀ (md5hex : List Char → String) (redisCache : RedisCache)
        (rcache : ReadabilityService.ResultCache) (cpu mem now : ℚ)
        (st : WSState) (msg : WsMessage),
        pyStrip msg.text ≠ [] →
        now - st.last_process_time < st.debounce_time →
        ((((pyStrip msg.text).length : ℤ) - (st.last_text_length : ℤ)).natAbs : ℚ) /
            ((max 1 st.last_text_length : ℕ) : ℚ) < 0.15 →
        websocket_step md5hex redisCache rcache cpu mem now st msg =
          { state := st, replies := [], rcache := rcache
            redisWrites := [], backgroundDetailed := none }) ∧
    (∀ load : ℚ,
        min_debounce_time ≤ adaptive_debounce load ∧
        adaptive_debounce load ≤ max_debounce_time) := by
  refine ⟨?_, ?_, ?_⟩
  · intro md5hex redisCache rcache cpu mem now st msg hlast heq
    have hlastne : st.last_text.isEmpty = false := by
      simpa [List.isEmpty_iff] using hlast
    simp only [websocket_step, heq, hlastne, Bool.false_eq_true, if_false, if_pos rfl,
      eq_self_iff_true, if_true]
  · intro md5hex redisCache rcache cpu mem now st msg hne hdeb hratio
    have hne' : (pyStrip msg.text).isEmpty = false := by
      simpa [List.isEmpty_iff] using hne
    have hr' : ¬ (0.15 : ℚ) <
        ((((pyStrip msg.text).length : ℤ) - (st.last_text_length : ℤ)).natAbs : ℚ) /
          ((max 1 st.last_text_length : ℕ) : ℚ) := not_lt.mpr hratio.le
    by_cases heq : pyStrip msg.text = st.last_text
    · have hlastne : st.last_text.isEmpty = false := by rw [← heq]; exact hne'
      simp only [websocket_step, heq, hlastne, Bool.false_eq_true, if_false, if_pos rfl,
        eq_self_iff_true, if_true]
    · simp only [websocket_step, hne', Bool.false_eq_true, if_false, if_neg heq,
        if_pos (And.intro hdeb hr')]
  · intro load
    unfold adaptive_debounce min_debounce_time max_debounce_time
    split_ifs with h1 h2
    · exact ⟨by norm_num, le_refl _⟩
    · constructor
      · have : (0 : ℚ) ≤ (0.8 - 0.1) * (load - 0.5) / 0.3 := by
          apply div_nonneg
          · nlinarith
          · norm_num
        linarith
      · push_neg at h1
        have : (0.8 - 0.1) * (load - 0.5) / 0.3 ≤ 0.7 := by
          rw [div_le_iff₀ (by norm_num : (0:ℚ) < 0.3)]
          nlinarith
        linarith
    · exact ⟨le_refl _, by norm_num⟩

/-- Witness for C8: a duplicate message, an early small-change message,
and the debounce bound at load 0.6. -/
theorem claim_C8_streaming_debounce_witness :
    websocket_step (fun _ => "d") [] [] 0 0 0
        { last_text := ['a'], last_text_length := 1, last_word_count := 1
          last_process_time := 0, debounce_time := 0.2, connection_cache := [] }
        { text := ['a'], include_word_analysis := false
          include_sentence_analysis := false, user_context := none } =
      { state := { last_text := ['a'], last_text_length := 1, last_word_count := 1
                   last_process_time := 0, debounce_time := 0.2, connection_cache := [] }
        replies := [], rcache := [], redisWrites := [], backgroundDetailed := none } ∧
    websocket_step (fun _ => "d") [] [] 0 0 0.1
        { last_text := ['a', 'b'], last_text_length := 2, last_word_count := 1
          last_process_time := 0, debounce_time := 0.2, connection_cache := [] }
        { text := ['b', 'a'], include_word_analysis := false
          include_sentence_analysis := false, user_context := none } =
      { state := { last_text := ['a', 'b'], last_text_length := 2, last_word_count := 1
                   last_process_time := 0, debounce_time := 0.2, connection_cache := [] }
        replies := [], rcache := [], redisWrites := [], backgroundDetailed := none } ∧
    min_debounce_time ≤ adaptive_debounce 0.6 ∧
    adaptive_debounce 0.6 ≤ max_debounce_time := by
  refine ⟨?_, ?_, claim_C8_streaming_debounce.2.2 0.6⟩
  · exact claim_C8_streaming_debounce.1 (fun _ => "d") [] [] 0 0 0 _ _
      (by decide) (by decide)
  · exact claim_C8_streaming_debounce.2.1 (fun _ => "d") [] [] 0 0 0.1 _ _
      (by decide) (by decide) (by decide)

/-- C9 (counterexample).  In simplified mode the word-complexity rule
still emits its four examples, so not every recommendation carries an
empty examples list. -/
theorem claim_C9_simplified_counterexample :
    ∃ r ∈ ReadabilityRecommender.generate
        { lix_score := 0, rix_score := 0, avg_sentence_length := 0
          long_words_percentage := 30, user_context := none } true,
      r.examples ≠ [] := by
  decide

/-- Stripping sentence-structure examples leaves the word-complexity
segment unchanged. -/
theorem map_strip_word_complexity (m : RecMetrics) :
    (ReadabilityRecommender.word_complexity_recs m).map
        (fun r => if r.type = "sentence_structure" then { r with examples := [] } else r) =
      ReadabilityRecommender.word_complexity_recs m := by
  unfold ReadabilityRecommender.word_complexity_recs
  split_ifs <;> rfl

/-- Stripping sentence-structure examples leaves the writing-style
segment unchanged. -/
theorem map_strip_writing_style (m : RecMetrics) :
    (ReadabilityRecommender.writing_style_recs m).map
        (fun r => if r.type = "sentence_structure" then { r with examples := [] } else r) =
      ReadabilityRecommender.writing_style_recs m := by
  unfold ReadabilityRecommender.writing_style_recs
  split_ifs <;> rfl

/-- Stripping sentence-structure examples leaves the technical-language
segment unchanged. -/
theorem map_strip_technical_language (m : RecMetrics) :
    (ReadabilityRecommender.technical_language_recs m).map
        (fun r => if r.type = "sentence_structure" then { r with examples := [] } else r) =
      ReadabilityRecommender.technical_language_recs m := by
  unfold ReadabilityRecommender.technical_language_recs
  split_ifs <;> rfl

/-- Stripping sentence-structure examples leaves the visual-aids segment
unchanged. -/
theorem map_strip_visual_aids (m : RecMetrics) :
    (ReadabilityRecommender.visual_aids_recs m).map
        (fun r => if r.type = "sentence_structure" then { r with examples := [] } else r) =
      ReadabilityRecommender.visual_aids_recs m := by
  unfold ReadabilityRecommender.visual_aids_recs
  split_ifs <;> rfl

/-- Stripping sentence-structure examples leaves the user-context segment
unchanged. -/
theorem map_strip_user_context (m : RecMetrics) :
    (ReadabilityRecommender.user_context_recs m).map
        (fun r => if r.type = "sentence_structure" then { r with examples := [] } else r) =
      ReadabilityRecommender.user_context_recs m := by
  unfold ReadabilityRecommender.user_context_recs
  cases m.user_context with
  | none => rfl
  | some ctx =>
    dsimp only
    split_ifs <;> rfl

/-- Stripping sentence-structure examples leaves the RIX segment
unchanged. -/
theorem map_strip_rix (m : RecMetrics) :
    (ReadabilityRecommender.rix_recs m).map
        (fun r => if r.type = "sentence_structure" then { r with examples := [] } else r) =
      ReadabilityRecommender.rix_recs m := by
  unfold ReadabilityRecommender.rix_recs
  split_ifs <;> rfl

/-- Stripping sentence-structure examples leaves the positive-feedback
stub unchanged. -/
theorem map_strip_positive_feedback (m : RecMetrics) :
    (ReadabilityRecommender.positive_feedback_recs m).map
        (fun r => if r.type = "sentence_structure" then { r with examples := [] } else r) =
      ReadabilityRecommender.positive_feedback_recs m := by
  unfold ReadabilityRecommender.positive_feedback_recs
  split_ifs <;> rfl

/-- C9 (amended).  Simplified mode suppresses the examples of the
sentence-structure rule only; every other recommendation, and the set,
types, impacts and order of the fired rules, are identical to full
mode. -/
theorem claim_C9_simplified_amended :
    ∀ m : RecMetrics,
      ReadabilityRecommender.generate m true =
        (ReadabilityRecommender.generate m false).map
          (fun r => if r.type = "sentence_structure" then
            { r with examples := [] } else r) := by
  intro m
  have hmapS :
      (ReadabilityRecommender.sentence_structure_recs m false).map
          (fun r => if r.type = "sentence_structure" then { r with examples := [] } else r) =
        ReadabilityRecommender.sentence_structure_recs m true := by
    unfold ReadabilityRecommender.sentence_structure_recs
    split_ifs <;> first | rfl | simp_all
  have hcond :
      (ReadabilityRecommender.sentence_structure_recs m true ++
        ReadabilityRecommender.word_complexity_recs m ++
        ReadabilityRecommender.writing_style_recs m ++
        ReadabilityRecommender.technical_language_recs m ++
        ReadabilityRecommender.visual_aids_recs m ++
        ReadabilityRecommender.user_context_recs m ++
        ReadabilityRecommender.rix_recs m).isEmpty =
      (ReadabilityRecommender.sentence_structure_recs m false ++
        ReadabilityRecommender.word_complexity_recs m ++
        ReadabilityRecommender.writing_style_recs m ++
        ReadabilityRecommender.technical_language_recs m ++
        ReadabilityRecommender.visual_aids_recs m ++
        ReadabilityRecommender.user_context_recs m ++
        ReadabilityRecommender.rix_recs m).isEmpty := by
    unfold ReadabilityRecommender.sentence_structure_recs
    split_ifs <;> rfl
  simp only [ReadabilityRecommender.generate]
  rw [apply_ite (List.map
      (fun r : Recommendation =>
        if r.type = "sentence_structure" then { r with examples := [] } else r)),
    map_strip_positive_feedback]
  simp only [List.map_append]
  rw [hmapS, map_strip_word_complexity, map_strip_writing_style,
    map_strip_technical_language, map_strip_visual_aids, map_strip_user_context,
    map_strip_rix, hcond]

set_option maxRecDepth 8192 in
/-- C10.  The readability service's result cache keys an entry by only the
first 100 characters plus the length, so the two distinct 102-character
texts `"a"*100 ++ ".b"` and `"a"*100 ++ "bb"` share a cache key: after the
first is analyzed, the second is answered with the cached analysis of the
first (LIX 51), not with its own analysis (LIX 101). -/
theorem claim_C10_cache_key_collision :
    (List.replicate 100 'a' ++ ".b".data) ≠ (List.replicate 100 'a' ++ "bb".data) ∧
    (List.replicate 100 'a' ++ ".b".data).take 100 =
      (List.replicate 100 'a' ++ "bb".data).take 100 ∧
    (List.replicate 100 'a' ++ ".b".data).length =
      (List.replicate 100 'a' ++ "bb".data).length ∧
    ReadabilityService.get_cache_key (List.replicate 100 'a' ++ ".b".data) =
      ReadabilityService.get_cache_key (List.replicate 100 'a' ++ "bb".data) ∧
    (ReadabilityService.get_readability
        (ReadabilityService.get_readability [] (List.replicate 100 'a' ++ ".b".data)).2
        (List.replicate 100 'a' ++ "bb".data)).1 =
      (ReadabilityService.get_readability [] (List.replicate 100 'a' ++ ".b".data)).1 ∧
    (ReadabilityService.get_readability [] (List.replicate 100 'a' ++ ".b".data)).1.lix.score
        = 51 ∧
    (ReadabilityService.get_readability [] (List.replicate 100 'a' ++ "bb".data)).1.lix.score
        = 101 := by
  decide

end ClaimTheorems

end LixService
